import Mathlib

/-!
Verification of the WhatsApp bridge service
(src/server/src/services/whatsapp.ts).

The development shallowly embeds the service: JavaScript string
operations are modelled on `List Char` with the exact first-occurrence
semantics of `String.prototype.replace`, the message router
`handleMessage` is modelled as a function from its inputs and the
dispatch outcome to the list of observable actions it performs, the
dispatcher `askClaude` is modelled by its argument-list builder plus a
function from the subprocess event (close before or after the timeout)
to the settled result, and the connection supervisor is modelled as a
state-transition function emitting effect lists.
-/

/-- JavaScript `String.prototype.replace` with a plain-string pattern
replaces only the FIRST occurrence.  This is the list-level engine:
scan left to right, and at the first position where `pat` is a prefix,
drop `pat` and emit `repl`. An empty pattern matches immediately,
as in JavaScript. -/
def replaceFirstList : List Char → List Char → List Char → List Char
  | [], pat, repl => if pat.isEmpty then repl else []
  | c :: rest, pat, repl =>
    if pat.isPrefixOf (c :: rest) then repl ++ (c :: rest).drop pat.length
    else c :: replaceFirstList rest pat repl

/-- Embedding of `s.replace(pat, repl)` for string `pat` (first occurrence only). -/
def jsReplaceFirst (s pat repl : String) : String :=
  String.mk (replaceFirstList s.data pat.data repl.data)

/-- Embedding of `s.split(c)[0]`: the text before the first occurrence of `c`. -/
def jsSplitHead (s : String) (c : Char) : String :=
  String.mk (s.data.takeWhile (fun a => a != c))

/-- List-level substring test used to embed `String.prototype.includes`. -/
def listHasSub : List Char → List Char → Bool
  | [], pat => pat.isEmpty
  | c :: rest, pat => pat.isPrefixOf (c :: rest) || listHasSub rest pat

/-- Embedding of `s.includes(pat)`. -/
def jsIncludes (s pat : String) : Bool :=
  listHasSub s.data pat.data

/-- Embedding of `s.endsWith(pat)`. -/
def jsEndsWith (s pat : String) : Bool :=
  pat.data.isSuffixOf s.data

/-- The direct-message address form handled at whatsapp.ts:124. -/
def dmSuffix : String := "@s.whatsapp.net"

/-- The linked-device address form handled at whatsapp.ts:127. -/
def lidSuffix : String := "@lid"

/-- Identity extraction for a direct-message address, whatsapp.ts:126:
`jid.replace(dmSuffix, the empty string).split(the colon)[0]`. -/
def resolvePhone (jid : String) : String :=
  jsSplitHead (jsReplaceFirst jid dmSuffix "") ':'

/-- Modelled from the words of the spec (section 4.1) for comparison with
`resolvePhone`: strip the (trailing) direct-message suffix, then strip
the device-multiplexing segment, i.e. the text after a colon. -/
def specResolvePhone (jid : String) : String :=
  jsSplitHead (String.mk (jid.data.take (jid.data.length - dmSuffix.data.length))) ':'

/-- The fixed base argument list built by `askClaude`, whatsapp.ts:212-219. -/
def baseArgs (systemPrompt question : String) : List String :=
  ["--print",
   "--model", "sonnet",
   "--dangerously-skip-permissions",
   "--system-prompt", systemPrompt,
   "--max-turns", "5",
   "--", question]

/-- Embedding of `args.splice(i, 0, ...ins)`: insert `ins` at index `i`. -/
def spliceInsert (l : List String) (i : Nat) (ins : List String) : List String :=
  l.take i ++ ins ++ l.drop i

/-- The full argument list passed to the backend subprocess,
whatsapp.ts:212-223: the base list, with `--mcp-config <path>` spliced
in at index 4 when the path is non-empty (JavaScript truthiness of the
string). -/
def claudeArgs (systemPrompt question mcpConfigPath : String) : List String :=
  if mcpConfigPath ≠ "" then
    spliceInsert (baseArgs systemPrompt question) 4 ["--mcp-config", mcpConfigPath]
  else
    baseArgs systemPrompt question

/-- The structured result of one dispatch, per the data model of the spec
(section 3). -/
inductive DispatchResult where
  | Success (text : String)
  | TimedOut
  | ProcessFailure (exitCode : Nat) (stderrText : String)
  | SpawnError (reason : String)
  deriving DecidableEq

/-- Embedding of `s.trim()`: drop leading and trailing whitespace.
Defined on the character list so that it evaluates by kernel reduction. -/
def jsTrim (s : String) : String :=
  String.mk (((s.data.dropWhile Char.isWhitespace).reverse.dropWhile Char.isWhitespace).reverse)

/-- The generic diagnostic built at whatsapp.ts:241 when stderr is empty. -/
def genericExitMsg (code : Nat) : String :=
  "Claude exited with code " ++ toString code

/-- The close handler of `askClaude`, whatsapp.ts:237-243: exit code 0
with non-empty trimmed stdout resolves with the trimmed stdout; any other
close rejects with stderr, or with the generic message when stderr is
empty (JavaScript truthiness of both strings). -/
def onClose (code : Nat) (stdout stderr : String) : DispatchResult :=
  if code = 0 ∧ jsTrim stdout ≠ "" then
    DispatchResult.Success (jsTrim stdout)
  else
    DispatchResult.ProcessFailure code (if stderr ≠ "" then stderr else genericExitMsg code)

/-- The observable behaviour of the backend subprocess during one
dispatch: either it closes at time `t` (milliseconds) with an exit code
and captured output, or it never exits. -/
inductive ProcEvent where
  | closed (t : Nat) (code : Nat) (stdout stderr : String)
  | neverExits
  deriving DecidableEq

/-- The fixed timeout budget of `askClaude`, whatsapp.ts:251. -/
def timeoutMs : Nat := 120000

/-- Whether the subprocess exits before the timeout timer fires. -/
def exitedWithinTimeout : ProcEvent → Bool
  | ProcEvent.closed t _ _ _ => decide (t < timeoutMs)
  | ProcEvent.neverExits => false

/-- One full dispatch, whatsapp.ts:237-251, as the race between the close
event and the timeout timer: the first component is the settled result
(the promise settles once; later events are ignored), the second is
whether `child.kill()` was delivered to a still-live process.  When the
close event wins, the timer still fires later but kills an already-dead
process; when the timer wins, the process is killed and the later close
event cannot re-settle the promise. -/
def runDispatch : ProcEvent → DispatchResult × Bool
  | ProcEvent.closed t code stdout stderr =>
    if t < timeoutMs then (onClose code stdout stderr, false)
    else (DispatchResult.TimedOut, true)
  | ProcEvent.neverExits => (DispatchResult.TimedOut, true)

/-- How one dispatch settles, as seen by `handleMessage`: the promise of
`askClaude` either resolves with the response text, or rejects with an
error message (timeout, process failure, and spawn error all reject;
the catch block at whatsapp.ts:182 treats every rejection alike). -/
inductive DispatchOutcome where
  | ok (response : String)
  | fail (errMsg : String)
  deriving DecidableEq

/-- An observable action performed by the message router. -/
inductive RouterAction where
  | presenceSubscribe (jid : String)
  | presenceUpdate (state : String) (jid : String)
  | dispatch (question phone userId : String)
  | send (jid : String) (text : String)
  | log (msg : String)
  deriving DecidableEq

/-- The fixed user-facing failure message, whatsapp.ts:184. -/
def errorFallback : String := "Sorry, I encountered an error. Please try again."

/-- The registration-instructions reply, whatsapp.ts:167. -/
def registrationMsg (phone : String) : String :=
  "Your ID is not registered.\n\nYour WhatsApp ID: " ++ phone ++
  "\n\nGo to Settings > WhatsApp in OptimusHQ and enter this ID in the phone field, then save."

/-- Identity resolution dispatching on the address form, whatsapp.ts:121-139:
direct-message addresses go through `resolvePhone`; linked-device
addresses drop the `@lid` marker (first occurrence, as in JavaScript)
and are used verbatim; other forms yield no identifier. -/
def resolveIdentity (jid : String) : Option String :=
  if jsEndsWith jid dmSuffix then some (resolvePhone jid)
  else if jsEndsWith jid lidSuffix then some (jsReplaceFirst jid lidSuffix "")
  else none

/-- Embedding of `a || b || the empty string` over possibly-absent strings,
whatsapp.ts:145-147: the first present, non-empty string, else empty. -/
def firstTruthy : Option String → Option String → String
  | some s, b => if s ≠ "" then s else
      match b with
      | some t => if t ≠ "" then t else ""
      | none => ""
  | none, b =>
      match b with
      | some t => if t ≠ "" then t else ""
      | none => ""

/-- The message router `handleMessage`, whatsapp.ts:117-186, as the list
of observable actions it performs.  Inputs: the (possibly absent) remote
jid, the two text payload variants, the authorization lookup
collaborator (a function from the resolved identifier; the unset
collaborator of whatsapp.ts:158 corresponds to a lookup that always
yields none), and how the dispatch settles.  Console diagnostics are
modelled only where a claim depends on them: the error log of the catch
block and the failed-extraction log. -/
def handleMessage (jidOpt : Option String) (conversation extendedText : Option String)
    (lookup : String → Option (String × String)) (outcome : DispatchOutcome) :
    List RouterAction :=
  match jidOpt with
  | none => []
  | some jid =>
    if jsIncludes jid "@g.us" then []
    else
      match resolveIdentity jid with
      | none => [RouterAction.log ("Could not extract phone from jid: " ++ jid)]
      | some phone =>
        if phone = "" then [RouterAction.log ("Could not extract phone from jid: " ++ jid)]
        else if firstTruthy conversation extendedText = "" then []
        else
          match lookup phone with
          | none => [RouterAction.send jid (registrationMsg phone)]
          | some (userId, _projectId) =>
            RouterAction.presenceSubscribe jid ::
            RouterAction.presenceUpdate "composing" jid ::
            RouterAction.dispatch (firstTruthy conversation extendedText) phone userId ::
            (match outcome with
             | DispatchOutcome.ok response =>
               [RouterAction.presenceUpdate "paused" jid, RouterAction.send jid response]
             | DispatchOutcome.fail errMsg =>
               [RouterAction.log errMsg, RouterAction.send jid errorFallback])

/-- The outbound messages among a list of router actions. -/
def sends : List RouterAction → List (String × String)
  | [] => []
  | RouterAction.send jid text :: rest => (jid, text) :: sends rest
  | _ :: rest => sends rest

/-- The outcome of one `sendMessage` call, whatsapp.ts:188-191. -/
inductive SendOutcome where
  | sent (jid text : String)
  | dropped
  deriving DecidableEq

/-- `sendMessage`, whatsapp.ts:188-191: with no transport socket the call
returns at once, sending nothing and raising nothing (the guard is an
early return, so no error path exists in that branch); with a socket the
text is handed to the transport. -/
def sendMessage (socketPresent : Bool) (jid text : String) : SendOutcome :=
  if socketPresent then SendOutcome.sent jid text else SendOutcome.dropped

/-- The mutable fields of the service relevant to the connection
lifecycle, whatsapp.ts:25-28. -/
structure SupervisorState where
  socketPresent : Bool
  initializing : Bool
  connected : Bool
  phoneNumber : Option String
  deriving DecidableEq

/-- An observable effect of a supervisor transition. -/
inductive SupAction where
  | emitDisconnected
  | scheduleReconnect (delayMs : Nat)
  deriving DecidableEq

/-- The Baileys disconnect reason code for an explicit logout. -/
def loggedOutCode : Nat := 401

/-- The connection-close branch of the `connection.update` handler,
whatsapp.ts:77-89: reconnection is warranted unless the status code of
the disconnect error equals the logged-out code (an absent code, the
`none` case, also warrants reconnection, as in the JavaScript comparison
with undefined); the connected flag and phone number are cleared and the
disconnect event emitted in every case; only in the reconnect case the
socket handle and the initializing flag are cleared and a reconnect
timer is scheduled at 3000 milliseconds. -/
def onConnectionClose (statusCode : Option Nat) (st : SupervisorState) :
    SupervisorState × List SupAction :=
  if statusCode ≠ some loggedOutCode then
    ({ st with connected := false, phoneNumber := none,
               socketPresent := false, initializing := false },
     [SupAction.emitDisconnected, SupAction.scheduleReconnect 3000])
  else
    ({ st with connected := false, phoneNumber := none },
     [SupAction.emitDisconnected])

/-- Whether a supervisor effect is a scheduled reconnection (one such
effect fires exactly one later initialize call). -/
def isReconnect : SupAction → Bool
  | SupAction.scheduleReconnect _ => true
  | _ => false

/-- An effect of one initialize call. -/
inductive InitEffect where
  | ensureAuthDir
  | createSocket
  | subscribe (eventName : String)
  deriving DecidableEq

/-- The synchronous skeleton of `initialize`, whatsapp.ts:48-115: the
guard at line 49 returns at once when a socket handle exists or an
initialization is in flight; otherwise the auth directory is ensured,
one socket is created, the three event subscriptions are registered, and
the call ends with a present socket and a cleared initializing flag. -/
def initializeStep (st : SupervisorState) : SupervisorState × List InitEffect :=
  if st.socketPresent || st.initializing then (st, [])
  else
    ({ st with socketPresent := true, initializing := false },
     [InitEffect.ensureAuthDir, InitEffect.createSocket,
      InitEffect.subscribe "creds.update",
      InitEffect.subscribe "connection.update",
      InitEffect.subscribe "messages.upsert"])

/-- Claim C1, counterexample: with a non-empty configuration path, the
argument list does NOT place `--mcp-config` after `--max-turns` as the
claim states; the pair is spliced in at index 4, before
`--system-prompt`. -/
theorem mcpConfig_insert_counterexample :
    claudeArgs "s" "q" "p" ≠
      ["--print", "--model", "sonnet", "--dangerously-skip-permissions",
       "--system-prompt", "s", "--max-turns", "5", "--mcp-config", "p", "--", "q"] ∧
    claudeArgs "s" "q" "p" =
      ["--print", "--model", "sonnet", "--dangerously-skip-permissions",
       "--mcp-config", "p", "--system-prompt", "s", "--max-turns", "5", "--", "q"] := by
  decide

/-- Claim C1, amended: with a non-empty path the `--mcp-config <path>`
pair is inserted at index 4, i.e. after `--dangerously-skip-permissions`
and before `--system-prompt`; with the empty path it is absent and the
remaining arguments are unchanged and in the same order. -/
theorem mcpConfig_insert_position (systemPrompt question mcpConfigPath : String) :
    (mcpConfigPath ≠ "" →
      claudeArgs systemPrompt question mcpConfigPath =
        ["--print", "--model", "sonnet", "--dangerously-skip-permissions",
         "--mcp-config", mcpConfigPath,
         "--system-prompt", systemPrompt,
         "--max-turns", "5", "--", question]) ∧
    claudeArgs systemPrompt question "" =
      ["--print", "--model", "sonnet", "--dangerously-skip-permissions",
       "--system-prompt", systemPrompt, "--max-turns", "5", "--", question] := by
  constructor
  · intro h
    rw [claudeArgs, if_pos h]
    rfl
  · rfl

/-- Claim C1, witness: the amended insertion position at concrete inputs. -/
theorem mcpConfig_insert_position_witness :
    claudeArgs "sys" "question" "/tmp/mcp.json" =
      ["--print", "--model", "sonnet", "--dangerously-skip-permissions",
       "--mcp-config", "/tmp/mcp.json",
       "--system-prompt", "sys",
       "--max-turns", "5", "--", "question"] :=
  (mcpConfig_insert_position "sys" "question" "/tmp/mcp.json").1 (by decide)

/-- Claim C2: a dispatch close resolves to Success exactly when the exit
code is 0 and the trimmed stdout is non-empty, and the Success payload is
the trimmed stdout; every other close yields a ProcessFailure carrying
the captured stderr, or the generic exit-code message when stderr is
empty. -/
theorem askClaude_close_result (code : Nat) (stdout stderr : String) :
    (code = 0 ∧ jsTrim stdout ≠ "" →
      onClose code stdout stderr = DispatchResult.Success (jsTrim stdout)) ∧
    (¬ (code = 0 ∧ jsTrim stdout ≠ "") →
      onClose code stdout stderr =
        DispatchResult.ProcessFailure code
          (if stderr ≠ "" then stderr else genericExitMsg code)) ∧
    (∀ s, onClose code stdout stderr = DispatchResult.Success s →
      code = 0 ∧ jsTrim stdout ≠ "" ∧ s = jsTrim stdout) := by
  refine ⟨fun h => ?_, fun h => ?_, fun s hs => ?_⟩
  · rw [onClose, if_pos h]
  · rw [onClose, if_neg h]
  · by_cases hc : code = 0 ∧ jsTrim stdout ≠ ""
    · rw [onClose, if_pos hc] at hs
      exact ⟨hc.1, hc.2, (DispatchResult.Success.injEq _ _).mp hs.symm⟩
    · rw [onClose, if_neg hc] at hs
      exact absurd hs (by simp)

/-- Claim C2, witness: a clean exit with padded stdout resolves to the
trimmed text. -/
theorem askClaude_close_result_witness :
    onClose 0 "  Project X is idle\n" "noise" = DispatchResult.Success "Project X is idle" :=
  (askClaude_close_result 0 "  Project X is idle\n" "noise").1 ⟨rfl, by decide⟩

/-- Claim C3: when the subprocess has not exited within the 120-second
budget, the dispatch settles as TimedOut and `child.kill()` is delivered
to the still-live process, so no live backend process survives the call. -/
theorem askClaude_timeout_kills (e : ProcEvent) (h : exitedWithinTimeout e = false) :
    runDispatch e = (DispatchResult.TimedOut, true) := by
  cases e with
  | closed t code stdout stderr =>
    have h' : ¬ t < timeoutMs := of_decide_eq_false h
    rw [runDispatch, if_neg h']
  | neverExits => rfl

/-- Claim C3, witness: a close arriving exactly at the timeout boundary is
already a timeout, and the kill is delivered. -/
theorem askClaude_timeout_kills_witness :
    runDispatch (ProcEvent.closed 120000 0 "late" "") = (DispatchResult.TimedOut, true) :=
  askClaude_timeout_kills (ProcEvent.closed 120000 0 "late" "") rfl

/-- Claim C4, counterexample: for an authorized message whose dispatch
fails, the router sends the fallback reply WITHOUT signalling paused
presence, so paused presence is not set on every dispatch outcome as the
claim states. -/
theorem paused_presence_counterexample :
    RouterAction.presenceUpdate "paused" "15551234567@s.whatsapp.net" ∉
      handleMessage (some "15551234567@s.whatsapp.net") (some "hi") none
        (fun _ => some ("u1", "p1")) (DispatchOutcome.fail "boom") ∧
    RouterAction.send "15551234567@s.whatsapp.net" errorFallback ∈
      handleMessage (some "15551234567@s.whatsapp.net") (some "hi") none
        (fun _ => some ("u1", "p1")) (DispatchOutcome.fail "boom") := by
  decide

/-- Claim C4, amended: for an authorized message the router signals
paused presence after the dispatcher returns and before the outbound
reply only when the dispatch succeeds; when the dispatch fails, the
fallback error string is sent without any paused presence signal. -/
theorem paused_presence_only_on_success
    (jid phone text userId projectId response errMsg : String)
    (conversation extendedText : Option String)
    (lookup : String → Option (String × String))
    (hg : jsIncludes jid "@g.us" = false)
    (hr : resolveIdentity jid = some phone)
    (hp : phone ≠ "")
    (ht : firstTruthy conversation extendedText = text)
    (htne : text ≠ "")
    (hl : lookup phone = some (userId, projectId)) :
    handleMessage (some jid) conversation extendedText lookup (DispatchOutcome.ok response) =
      [RouterAction.presenceSubscribe jid,
       RouterAction.presenceUpdate "composing" jid,
       RouterAction.dispatch text phone userId,
       RouterAction.presenceUpdate "paused" jid,
       RouterAction.send jid response] ∧
    handleMessage (some jid) conversation extendedText lookup (DispatchOutcome.fail errMsg) =
      [RouterAction.presenceSubscribe jid,
       RouterAction.presenceUpdate "composing" jid,
       RouterAction.dispatch text phone userId,
       RouterAction.log errMsg,
       RouterAction.send jid errorFallback] := by
  subst ht
  constructor <;> simp [handleMessage, hg, hr, hp, htne, hl]

/-- Claim C4, witness: the amended traces at concrete inputs. -/
theorem paused_presence_only_on_success_witness :
    handleMessage (some "15551234567@s.whatsapp.net") (some "status?") none
        (fun _ => some ("u1", "p1")) (DispatchOutcome.ok "Project X is idle") =
      [RouterAction.presenceSubscribe "15551234567@s.whatsapp.net",
       RouterAction.presenceUpdate "composing" "15551234567@s.whatsapp.net",
       RouterAction.dispatch "status?" "15551234567" "u1",
       RouterAction.presenceUpdate "paused" "15551234567@s.whatsapp.net",
       RouterAction.send "15551234567@s.whatsapp.net" "Project X is idle"] :=
  (paused_presence_only_on_success "15551234567@s.whatsapp.net" "15551234567" "status?"
      "u1" "p1" "Project X is idle" "boom" (some "status?") none
      (fun _ => some ("u1", "p1"))
      (by decide) (by decide) (by decide) (by decide) (by decide) rfl).1

/-- Claim C5: for an authorized message whose dispatch fails, exactly one
outbound message is produced, it is the fixed fallback string — the same
constant whatever the underlying error detail is — and the detail itself
goes only to the log. -/
theorem dispatch_failure_fixed_reply
    (jid phone text userId projectId errMsg : String)
    (conversation extendedText : Option String)
    (lookup : String → Option (String × String))
    (hg : jsIncludes jid "@g.us" = false)
    (hr : resolveIdentity jid = some phone)
    (hp : phone ≠ "")
    (ht : firstTruthy conversation extendedText = text)
    (htne : text ≠ "")
    (hl : lookup phone = some (userId, projectId)) :
    sends (handleMessage (some jid) conversation extendedText lookup
        (DispatchOutcome.fail errMsg)) = [(jid, errorFallback)] ∧
    RouterAction.log errMsg ∈
      handleMessage (some jid) conversation extendedText lookup
        (DispatchOutcome.fail errMsg) := by
  subst ht
  constructor <;> simp [handleMessage, hg, hr, hp, htne, hl, sends]

/-- Claim C5, witness: the fallback reply at concrete inputs, with a
concrete stderr detail that stays out of the outbound list. -/
theorem dispatch_failure_fixed_reply_witness :
    sends (handleMessage (some "15551234567@s.whatsapp.net") (some "status?") none
        (fun _ => some ("u1", "p1"))
        (DispatchOutcome.fail "ENOENT: claude binary missing")) =
      [("15551234567@s.whatsapp.net", errorFallback)] :=
  (dispatch_failure_fixed_reply "15551234567@s.whatsapp.net" "15551234567" "status?"
      "u1" "p1" "ENOENT: claude binary missing" (some "status?") none
      (fun _ => some ("u1", "p1"))
      (by decide) (by decide) (by decide) (by decide) (by decide) rfl).1

/-- Claim C6: for a message whose resolved identifier the authorization
lookup maps to no result, the router performs exactly one action — the
registration-instructions reply, which contains the resolved identifier
as a literal substring — and no dispatch action occurs, whatever the
dispatch outcome parameter would have been. -/
theorem unauthorized_registration_reply
    (jid phone text : String)
    (conversation extendedText : Option String)
    (lookup : String → Option (String × String))
    (outcome : DispatchOutcome)
    (hg : jsIncludes jid "@g.us" = false)
    (hr : resolveIdentity jid = some phone)
    (hp : phone ≠ "")
    (ht : firstTruthy conversation extendedText = text)
    (htne : text ≠ "")
    (hl : lookup phone = none) :
    handleMessage (some jid) conversation extendedText lookup outcome =
      [RouterAction.send jid (registrationMsg phone)] ∧
    (∀ q p u, RouterAction.dispatch q p u ∉
      handleMessage (some jid) conversation extendedText lookup outcome) ∧
    ∃ t u, registrationMsg phone = t ++ phone ++ u := by
  subst ht
  refine ⟨?_, ?_, "Your ID is not registered.\n\nYour WhatsApp ID: ", _, rfl⟩
  · simp [handleMessage, hg, hr, hp, htne, hl]
  · intro q p u
    simp [handleMessage, hg, hr, hp, htne, hl]

/-- Claim C6, witness: the registration reply at a concrete unregistered
identifier. -/
theorem unauthorized_registration_reply_witness :
    handleMessage (some "15550000000@s.whatsapp.net") (some "status?") none
        (fun _ => none) (DispatchOutcome.ok "unused") =
      [RouterAction.send "15550000000@s.whatsapp.net" (registrationMsg "15550000000")] :=
  (unauthorized_registration_reply "15550000000@s.whatsapp.net" "15550000000" "status?"
      (some "status?") none (fun _ => none) (DispatchOutcome.ok "unused")
      (by decide) (by decide) (by decide) (by decide) (by decide) rfl).1

/-- Claim C10: with no transport socket, `sendMessage` drops the text
silently — it neither sends nor raises; with a socket it sends.  Every
outbound reply of the router (registration, success, fallback) goes
through this gate. -/
theorem sendMessage_null_socket_drops (jid text : String) :
    sendMessage false jid text = SendOutcome.dropped ∧
    sendMessage true jid text = SendOutcome.sent jid text :=
  ⟨rfl, rfl⟩

/-- Claim C7: a connection close with the logged-out reason schedules no
reconnection; any other reason clears the socket handle and schedules
exactly one reconnection attempt at exactly 3000 milliseconds. -/
theorem connection_close_reconnect (statusCode : Option Nat) (st : SupervisorState) :
    (statusCode = some loggedOutCode →
      (onConnectionClose statusCode st).2.filter isReconnect = []) ∧
    (statusCode ≠ some loggedOutCode →
      (onConnectionClose statusCode st).1.socketPresent = false ∧
      (onConnectionClose statusCode st).2.filter isReconnect =
        [SupAction.scheduleReconnect 3000]) := by
  constructor
  · intro h
    simp [onConnectionClose, h, isReconnect]
  · intro h
    simp [onConnectionClose, h, isReconnect]

/-- Claim C7, witness: code 408 reconnects at 3000 milliseconds with a
cleared handle; code 401 schedules nothing. -/
theorem connection_close_reconnect_witness :
    ((onConnectionClose (some 408) ⟨true, false, true, some "1555"⟩).1.socketPresent = false ∧
     (onConnectionClose (some 408) ⟨true, false, true, some "1555"⟩).2.filter isReconnect =
       [SupAction.scheduleReconnect 3000]) ∧
    (onConnectionClose (some 401) ⟨true, false, true, some "1555"⟩).2.filter isReconnect = [] :=
  ⟨(connection_close_reconnect (some 408) ⟨true, false, true, some "1555"⟩).2 (by decide),
   (connection_close_reconnect (some 401) ⟨true, false, true, some "1555"⟩).1 rfl⟩

/-- Claim C8: an initialize call made while a socket handle exists or an
initialization is already in flight is a no-op — the state is unchanged
and no socket creation and no event subscription happens. -/
theorem initialize_idempotent (st : SupervisorState)
    (h : st.socketPresent = true ∨ st.initializing = true) :
    initializeStep st = (st, []) := by
  rcases h with h | h <;> simp [initializeStep, h]

/-- Claim C8, witness: re-entry while initializing and re-entry while
connected are both no-ops. -/
theorem initialize_idempotent_witness :
    initializeStep ⟨false, true, false, none⟩ = (⟨false, true, false, none⟩, []) ∧
    initializeStep ⟨true, false, true, some "1555"⟩ = (⟨true, false, true, some "1555"⟩, []) :=
  ⟨initialize_idempotent ⟨false, true, false, none⟩ (Or.inr rfl),
   initialize_idempotent ⟨true, false, true, some "1555"⟩ (Or.inl rfl)⟩

/-- A character list is a prefix of itself (Bool form used by
`replaceFirstList`). -/
theorem listIsPrefixOfSelf (l : List Char) : l.isPrefixOf l = true := by
  induction l with
  | nil => rfl
  | cons c cs ih => simp [List.isPrefixOf, ih]

/-- When the pattern occurs nowhere before the trailing occurrence,
`replaceFirstList` removes exactly that trailing occurrence. -/
theorem replaceFirst_trailing (pat repl : List Char) (hpat : pat ≠ []) :
    ∀ pre : List Char,
      (∀ i, i < pre.length → pat.isPrefixOf ((pre ++ pat).drop i) = false) →
      replaceFirstList (pre ++ pat) pat repl = pre ++ repl := by
  intro pre
  induction pre with
  | nil =>
    intro _
    cases pat with
    | nil => exact absurd rfl hpat
    | cons c cs =>
      show replaceFirstList ([] ++ (c :: cs)) (c :: cs) repl = [] ++ repl
      simp [replaceFirstList, listIsPrefixOfSelf, List.drop_length]
  | cons c pre' ih =>
    intro h
    have h0 : pat.isPrefixOf (c :: (pre' ++ pat)) = false := by
      have := h 0 (Nat.succ_pos _)
      rwa [List.cons_append, List.drop_zero] at this
    have h' : ∀ i, i < pre'.length → pat.isPrefixOf ((pre' ++ pat).drop i) = false := by
      intro i hi
      have := h (i + 1) (Nat.succ_lt_succ hi)
      rwa [List.cons_append, List.drop_succ_cons] at this
    rw [List.cons_append]
    simp [replaceFirstList, h0, ih h']

/-- Claim C9, counterexample: on an address in which the direct-message
suffix occurs twice, the code removes the FIRST occurrence (JavaScript
replace), not the trailing one, so the result is not the address with
the suffix stripped as the claim states. -/
theorem resolve_direct_counterexample :
    jsEndsWith "a@s.whatsapp.netb@s.whatsapp.net" dmSuffix = true ∧
    resolvePhone "a@s.whatsapp.netb@s.whatsapp.net" = "ab@s.whatsapp.net" ∧
    specResolvePhone "a@s.whatsapp.netb@s.whatsapp.net" = "a@s.whatsapp.netb" ∧
    resolvePhone "a@s.whatsapp.netb@s.whatsapp.net" ≠
      specResolvePhone "a@s.whatsapp.netb@s.whatsapp.net" := by
  decide

/-- Claim C9, amended: identity resolution is a pure function of the
address; it removes the first occurrence of the direct-message suffix
and keeps the text before the first colon.  For every address ending in
the suffix with no earlier occurrence of it, this coincides with
stripping the trailing suffix and the device segment, as the spec words
say. -/
theorem resolve_direct_single_occurrence (pre : List Char)
    (h : ∀ i, i < pre.length →
      dmSuffix.data.isPrefixOf ((pre ++ dmSuffix.data).drop i) = false) :
    resolvePhone (String.mk (pre ++ dmSuffix.data)) =
      String.mk (pre.takeWhile (fun a => a != ':')) ∧
    specResolvePhone (String.mk (pre ++ dmSuffix.data)) =
      String.mk (pre.takeWhile (fun a => a != ':')) ∧
    resolvePhone (String.mk (pre ++ dmSuffix.data)) =
      specResolvePhone (String.mk (pre ++ dmSuffix.data)) := by
  have h1 : replaceFirstList (pre ++ dmSuffix.data) dmSuffix.data [] = pre := by
    have := replaceFirst_trailing dmSuffix.data [] (by decide) pre h
    simpa using this
  have h2 : (pre ++ dmSuffix.data).take ((pre ++ dmSuffix.data).length - dmSuffix.data.length)
      = pre := by
    rw [List.length_append, Nat.add_sub_cancel]
    exact List.take_left pre dmSuffix.data
  have e1 : resolvePhone (String.mk (pre ++ dmSuffix.data)) =
      String.mk (pre.takeWhile (fun a => a != ':')) := by
    show String.mk ((replaceFirstList (pre ++ dmSuffix.data) dmSuffix.data []).takeWhile
        (fun a => a != ':')) = _
    rw [h1]
  have e2 : specResolvePhone (String.mk (pre ++ dmSuffix.data)) =
      String.mk (pre.takeWhile (fun a => a != ':')) := by
    show String.mk (((pre ++ dmSuffix.data).take
        ((pre ++ dmSuffix.data).length - dmSuffix.data.length)).takeWhile
        (fun a => a != ':')) = _
    rw [h2]
  exact ⟨e1, e2, e1.trans e2.symm⟩

/-- Claim C9, witness: the concrete example of the claim, through the
amended theorem. -/
theorem resolve_direct_single_occurrence_witness :
    resolvePhone "15551234567:9@s.whatsapp.net" = "15551234567" := by
  have h := (resolve_direct_single_occurrence ("15551234567:9".data) (by decide)).1
  exact h
